import Mathlib

/-!
Verification development for the pymio effect-pipeline core
(`src/pymio/image.py`): the `MioImage` pipeline, its `MioResizeEffect`
and `MioCutEffect` effect classes, and the render/cache state machine.

Modelling conventions:
* Python floats are modelled as `Rat`; every comparison the code performs
  (`== 1.0`, `<= 0.0`, `>= 1.0`) is exact on the values involved.
* Python `int(x)` (truncation toward zero) is `pyTruncInt`.
* The two external pixel libraries (OpenCV and PIL) are modelled as a free
  algebra `Buf` of deterministic buffer-producing operations: each library
  call is a constructor recording its arguments, so two buffers are
  bit-identical exactly when the same operations were applied to the same
  source.  `Buf.width`/`Buf.height` give the documented output size of each
  library call (`.size` in PIL, array shape in OpenCV).
* Python exceptions are modelled with `Except (MioError × MioImage) _`:
  a raise carries the error together with the pipeline state as mutated so
  far (Python mutates `self` in place, so state changes made before the
  raise persist).  The `MioError` constructors stand for the distinct
  `ValueError` messages (the spec's error taxonomy):
  `imageNotOpened` = "Image not opened.", `invalidRatio` = "Invalid ratio
  value." (InvalidRatioError), `invalidTarget` = "Invalid target value."
  (InvalidTargetError), `invalidTargetSize` = "Invalid target size."
  (InvalidTargetSizeError), `invalidResizeMethod` = "Invalid resize
  method." / `invalidCutMethod` = "Invalid cut method."
  (UnsupportedBackendError), `noImageData` = "No image data to …",
  `assertionFailed` = the `assert` in `render`, `fileNotFound` =
  FileNotFoundError, `typeUnexpected` = MioTypeUnexpectedError.
-/

/- The Batteries `Rat` arithmetic operations are `@[irreducible]`, which
blocks the elaborator from evaluating concrete pipeline runs inside
`decide`; restore default reducibility for them in this file (the kernel
ignores reducibility attributes, so certification is unaffected). -/
attribute [local semireducible] Rat.mul Rat.inv Rat.add Rat.sub

/-- Python `int(x)` on a float: truncation toward zero. -/
def pyTruncInt (q : Rat) : Int :=
  if q < 0 then -((-q).floor) else q.floor

/-- OpenCV rounding of `fx * width` when `cv2.resize` is called with scale
factors: nearest integer (tie behaviour is never relied on below). -/
def cvRound (q : Rat) : Int :=
  (q + 1/2).floor

/-- The backend string `"cv2"` selecting the OpenCV code path. -/
def cv2Str : String :=
  "cv2"

/-- The backend string `"pil"` selecting the PIL code path. -/
def pilStr : String :=
  "pil"

/-- Free algebra of pixel buffers: a source buffer plus every external
library operation the pipeline can perform on buffers.  The libraries are
deterministic, so structural equality of `Buf` terms is bit-identity of
the buffers they denote. -/
inductive Buf where
  /-- An opened source image with the given id and pixel dimensions. -/
  | srcBuf (id : Nat) (w h : Int)
  /-- `pil_image_to_cv2` (utils.py): RGBA→BGRA reorder into an ndarray. -/
  | pilToCv2 (b : Buf)
  /-- `cv2_image_to_pil` (utils.py): BGRA→RGBA reorder into a PIL image. -/
  | cv2ToPil (b : Buf)
  /-- `cv2.resize(b, (w, h), interpolation)` with an explicit dsize. -/
  | cv2ResizeAbs (b : Buf) (w h : Int) (interp : Int)
  /-- `cv2.resize(b, (0,0), fx, fy, interpolation)` scale-factor mode. -/
  | cv2ResizeFxFy (b : Buf) (fx fy : Rat) (interp : Int)
  /-- `b.resize((w, h), resample)` in PIL. -/
  | pilResize (b : Buf) (w h : Int) (resample : Int)
  /-- `b[:rows, :cols]` on an OpenCV ndarray (clamped slicing). -/
  | cv2Slice (b : Buf) (rows cols : Int)
  /-- `b.crop((0, 0, w, h))` in PIL (exactly w×h, padding if needed). -/
  | pilCrop (b : Buf) (w h : Int)
  deriving DecidableEq, Repr

/-- Width of the buffer each operation produces (PIL `.size.0`, OpenCV
column count).  Slicing clamps to the array's extent; PIL `crop` yields
exactly the box size (clamped below at 0). -/
def Buf.width : Buf → Int
  | .srcBuf _ w _ => w
  | .pilToCv2 b => b.width
  | .cv2ToPil b => b.width
  | .cv2ResizeAbs _ w _ _ => w
  | .cv2ResizeFxFy b fx _ _ => cvRound (fx * b.width)
  | .pilResize _ w _ _ => w
  | .cv2Slice b _ cols => max 0 (min cols b.width)
  | .pilCrop _ w _ => max 0 w

/-- Height of the buffer each operation produces (PIL `.size.1`, OpenCV
row count). -/
def Buf.height : Buf → Int
  | .srcBuf _ _ h => h
  | .pilToCv2 b => b.height
  | .cv2ToPil b => b.height
  | .cv2ResizeAbs _ _ h _ => h
  | .cv2ResizeFxFy b _ fy _ => cvRound (fy * b.height)
  | .pilResize _ _ h _ => h
  | .cv2Slice b rows _ => max 0 (min rows b.height)
  | .pilCrop _ _ h => max 0 h

/-- Error taxonomy: one constructor per distinct exception the core
raises (see the module docstring for the message ↦ constructor map). -/
inductive MioError where
  | imageNotOpened
  | invalidRatio
  | invalidTarget
  | invalidTargetSize
  | invalidResizeMethod
  | invalidCutMethod
  | noImageData
  | assertionFailed
  | fileNotFound
  | typeUnexpected
  deriving DecidableEq, Repr

/-- A Python numeric value as seen by `isinstance`: an `int` or a `float`
(the constructor classification distinguishes exactly these two). -/
inductive PyVal where
  | pyInt (n : Int)
  | pyFloat (q : Rat)
  deriving DecidableEq, Repr

/-- The dynamic shape of the `target` argument of the effect
constructors: a bare number, a list/tuple of numbers, or anything else. -/
inductive PyTarget where
  | scalar (v : PyVal)
  | seq (items : List PyVal)
  | other
  deriving DecidableEq, Repr

/-- Configuration of `MioResizeEffect` (image.py lines 353-398). -/
structure MioResizeEffect where
  resize_method : String
  is_ratio_mode : Bool
  target_width : Int
  target_height : Int
  width_ratio : Rat
  height_ratio : Rat
  interpolation : Int
  deriving DecidableEq, Repr

/-- The field defaults assigned at the top of
`MioResizeEffect.__init__` before the target classification runs. -/
def MioResizeEffect.defaults : MioResizeEffect :=
  { resize_method := cv2Str
    is_ratio_mode := true
    target_width := 0
    target_height := 0
    width_ratio := 1
    height_ratio := 1
    interpolation := 0 }

/-- `MioResizeEffect.__init__(target, interpolation, resize_method)`:
classifies `target` (float → uniform ratio; float pair → per-axis ratios;
int pair → absolute mode; a pair that is neither falls through silently,
keeping the defaults; a 1-element sequence raises "Invalid target
value.", as does a non-float non-sequence), then stores `interpolation`
and `resize_method` unconditionally. -/
def MioResizeEffect.init (target : PyTarget) (interpolation : Int)
    (resize_method : String) : Except MioError MioResizeEffect :=
  let base := MioResizeEffect.defaults
  let classified : Except MioError MioResizeEffect :=
    match target with
    | .scalar (.pyFloat q) =>
        .ok { base with width_ratio := q, height_ratio := q, is_ratio_mode := true }
    | .scalar (.pyInt _) => .error .invalidTarget
    | .other => .error .invalidTarget
    | .seq items =>
        if items.length = 2 then
          match items with
          | [.pyFloat a, .pyFloat b] =>
              .ok { base with width_ratio := a, height_ratio := b, is_ratio_mode := true }
          | [.pyInt a, .pyInt b] =>
              .ok { base with target_width := a, target_height := b, is_ratio_mode := false }
          | _ => .ok base
        else if items.length = 1 then .error .invalidTarget
        else .ok base
  match classified with
  | .error e => .error e
  | .ok eff => .ok { eff with interpolation := interpolation, resize_method := resize_method }

/-- Configuration of `MioCutEffect` (image.py lines 476-511). -/
structure MioCutEffect where
  cut_method : String
  is_ratio_mode : Bool
  target_width : Int
  target_height : Int
  width_ratio : Rat
  height_ratio : Rat
  deriving DecidableEq, Repr

/-- The field defaults assigned at the top of `MioCutEffect.__init__`. -/
def MioCutEffect.defaults : MioCutEffect :=
  { cut_method := cv2Str
    is_ratio_mode := true
    target_width := 0
    target_height := 0
    width_ratio := 1
    height_ratio := 1 }

/-- `MioCutEffect.__init__(target, cut_method)`: same target
classification as the resize constructor, then stores `cut_method`. -/
def MioCutEffect.init (target : PyTarget) (cut_method : String) :
    Except MioError MioCutEffect :=
  let base := MioCutEffect.defaults
  let classified : Except MioError MioCutEffect :=
    match target with
    | .scalar (.pyFloat q) =>
        .ok { base with width_ratio := q, height_ratio := q, is_ratio_mode := true }
    | .scalar (.pyInt _) => .error .invalidTarget
    | .other => .error .invalidTarget
    | .seq items =>
        if items.length = 2 then
          match items with
          | [.pyFloat a, .pyFloat b] =>
              .ok { base with width_ratio := a, height_ratio := b, is_ratio_mode := true }
          | [.pyInt a, .pyInt b] =>
              .ok { base with target_width := a, target_height := b, is_ratio_mode := false }
          | _ => .ok base
        else if items.length = 1 then .error .invalidTarget
        else .ok base
  match classified with
  | .error e => .error e
  | .ok eff => .ok { eff with cut_method := cut_method }

/-- The polymorphic effect queue entry: the `MioEffect` base class or one
of the two concrete effect classes. -/
inductive MioEffect where
  | base
  | resize (e : MioResizeEffect)
  | cut (e : MioCutEffect)
  deriving DecidableEq, Repr

/-- The `MioImage` pipeline state: the fields of `MioImage.__init__`
that the effect-pipeline core reads or writes (`width`/`height` are
inherited from `MioObject`, initial value 0).  `original_image_path`
holds the recorded path id when the source was opened from a path. -/
structure MioImage where
  has_rendered : Bool
  rendered_times : Nat
  original_image : Option Buf
  image_bottom : Option (List Buf)
  image_center : Option Buf
  image_top : Option (List Buf)
  result : Option Buf
  original_image_path : Option Nat
  width : Int
  height : Int
  effects : List MioEffect
  deriving DecidableEq, Repr

/-- The pipeline state `MioImage()` constructs when no source argument
is given. -/
def MioImage.mk0 : MioImage :=
  { has_rendered := false
    rendered_times := 0
    original_image := none
    image_bottom := none
    image_center := none
    image_top := none
    result := none
    original_image_path := none
    width := 0
    height := 0
    effects := [] }

/-- A raise carries the error and the pipeline state as mutated so far. -/
abbrev MioRes (α : Type) := Except (MioError × MioImage) α

/-- Structural decidable equality for `Except` (cases on both sides),
so concrete pipeline runs can be compared by `decide`. -/
def Except.decEqStruct {ε α : Type} [DecidableEq ε] [DecidableEq α] :
    DecidableEq (Except ε α)
  | .ok a, .ok b =>
    if h : a = b then .isTrue (by rw [h]) else .isFalse (by intro hc; cases hc; exact h rfl)
  | .ok _, .error _ => .isFalse (by intro hc; cases hc)
  | .error _, .ok _ => .isFalse (by intro hc; cases hc)
  | .error a, .error b =>
    if h : a = b then .isTrue (by rw [h]) else .isFalse (by intro hc; cases hc; exact h rfl)

instance {ε α : Type} [DecidableEq ε] [DecidableEq α] : DecidableEq (Except ε α) :=
  Except.decEqStruct


/-- The state a pipeline computation left behind, whether it returned
normally or raised. -/
def stateOf : MioRes MioImage → MioImage
  | .ok s => s
  | .error (_, s) => s

/-- `MioResizeEffect.apply(image)` (image.py lines 400-466).  Checks the
working buffer, then in ratio mode: both ratios 1.0 → no-op `True`;
either ratio ≤ 0 → "Invalid ratio value."; else dispatch on
`resize_method` ("cv2" scale-factor resize, "pil" manual int(size·ratio)
resize, otherwise "Invalid resize method.").  In absolute mode: target
≤ 0 → "Invalid target size."; target equal to the pipeline's current
`width`/`height` → no-op; else dispatch on `resize_method`.  Successful
pixel work replaces `image_center` and updates `width`/`height` from the
new buffer's size. -/
def MioResizeEffect.apply (e : MioResizeEffect) (image : MioImage) :
    MioRes MioImage :=
  match image.image_center with
  | none => .error (.imageNotOpened, image)
  | some center =>
    if e.is_ratio_mode then
      if e.width_ratio = 1 ∧ e.height_ratio = 1 then
        .ok image
      else if e.width_ratio ≤ 0 ∨ e.height_ratio ≤ 0 then
        .error (.invalidRatio, image)
      else if e.resize_method = cv2Str then
        let nc := Buf.cv2ToPil
          (Buf.cv2ResizeFxFy (Buf.pilToCv2 center) e.width_ratio e.height_ratio e.interpolation)
        .ok { image with image_center := some nc, width := nc.width, height := nc.height }
      else if e.resize_method = pilStr then
        let tw := pyTruncInt ((center.width : Rat) * e.width_ratio)
        let th := pyTruncInt ((center.height : Rat) * e.height_ratio)
        let nc := Buf.pilResize center tw th e.interpolation
        .ok { image with image_center := some nc, width := nc.width, height := nc.height }
      else
        .error (.invalidResizeMethod, image)
    else
      if e.target_width ≤ 0 ∨ e.target_height ≤ 0 then
        .error (.invalidTargetSize, image)
      else if e.target_width = image.width ∧ e.target_height = image.height then
        .ok image
      else if e.resize_method = cv2Str then
        let nc := Buf.cv2ToPil
          (Buf.cv2ResizeAbs (Buf.pilToCv2 center) e.target_width e.target_height e.interpolation)
        .ok { image with image_center := some nc, width := nc.width, height := nc.height }
      else if e.resize_method = pilStr then
        let nc := Buf.pilResize center e.target_width e.target_height e.interpolation
        .ok { image with image_center := some nc, width := nc.width, height := nc.height }
      else
        .error (.invalidResizeMethod, image)

/-- `MioCutEffect.apply(image)` (image.py lines 513-568).  In ratio
mode: both ratios 1.0 → no-op; any ratio ≤ 0 or ≥ 1.0 → "Invalid ratio
value."; else crop — note the crop bounds are computed from the
pipeline's `width`/`height` fields, not from the working buffer's own
size.  In absolute mode: target ≤ 0 → "Invalid target size."; else crop
to the target.  Unknown `cut_method` → "Invalid cut method." -/
def MioCutEffect.apply (e : MioCutEffect) (image : MioImage) :
    MioRes MioImage :=
  match image.image_center with
  | none => .error (.imageNotOpened, image)
  | some center =>
    if e.is_ratio_mode then
      if e.width_ratio = 1 ∧ e.height_ratio = 1 then
        .ok image
      else if e.width_ratio ≤ 0 ∨ e.height_ratio ≤ 0 ∨ 1 ≤ e.width_ratio ∨ 1 ≤ e.height_ratio then
        .error (.invalidRatio, image)
      else if e.cut_method = cv2Str then
        let rows := pyTruncInt ((image.height : Rat) * e.height_ratio)
        let cols := pyTruncInt ((image.width : Rat) * e.width_ratio)
        let nc := Buf.cv2ToPil (Buf.cv2Slice (Buf.pilToCv2 center) rows cols)
        .ok { image with image_center := some nc, width := nc.width, height := nc.height }
      else if e.cut_method = pilStr then
        let cw := pyTruncInt ((image.width : Rat) * e.width_ratio)
        let ch := pyTruncInt ((image.height : Rat) * e.height_ratio)
        let nc := Buf.pilCrop center cw ch
        .ok { image with image_center := some nc, width := nc.width, height := nc.height }
      else
        .error (.invalidCutMethod, image)
    else
      if e.target_width ≤ 0 ∨ e.target_height ≤ 0 then
        .error (.invalidTargetSize, image)
      else if e.cut_method = cv2Str then
        let nc := Buf.cv2ToPil (Buf.cv2Slice (Buf.pilToCv2 center) e.target_height e.target_width)
        .ok { image with image_center := some nc, width := nc.width, height := nc.height }
      else if e.cut_method = pilStr then
        let nc := Buf.pilCrop center e.target_width e.target_height
        .ok { image with image_center := some nc, width := nc.width, height := nc.height }
      else
        .error (.invalidCutMethod, image)

/-- Dispatch of `effect.apply(self)` during render.  The base class's
`apply` body is `pass`: it does nothing and the return value is ignored
by `render`. -/
def MioEffect.apply : MioEffect → MioImage → MioRes MioImage
  | .base, image => .ok image
  | .resize e, image => e.apply image
  | .cut e, image => e.apply image

/-- The Python return value of `MioImage.open`: `self`, or the bare
`return` (Python `None`) taken on a `None` argument. -/
inductive PyRet where
  | retSelf
  | retNone
  deriving DecidableEq, Repr

/-- The dynamic shape of `MioImage.open`'s argument.  For path, bytes
and stream arguments the externally decoded buffer is carried in the
constructor (decoding is the external library's work); `found` records
whether the path exists on disk. -/
inductive OpenArg where
  | noneArg
  | pathArg (found : Bool) (pathId : Nat) (decoded : Buf)
  | pilArg (b : Buf)
  | ndarrayArg (b : Buf)
  | bytesArg (b : Buf)
  | streamArg (b : Buf)
  | otherArg
  deriving DecidableEq, Repr

/-- `MioImage.open(img)` (image.py lines 59-106).  `None` takes the bare
`return` (returning Python `None`, not `self`); a path that does not
exist raises FileNotFoundError; recognized shapes store the decoded
buffer in `_original_image` (an ndarray is first converted with
`cv2_image_to_pil`), update `width`/`height` from it, and return `self`;
anything else raises MioTypeUnexpectedError. -/
def MioImage.openImage (img : OpenArg) (s : MioImage) :
    MioRes (MioImage × PyRet) :=
  match img with
  | .noneArg => .ok (s, .retNone)
  | .pathArg found pathId b =>
    if found then
      .ok ({ s with original_image := some b, original_image_path := some pathId,
                    width := b.width, height := b.height }, .retSelf)
    else
      .error (.fileNotFound, s)
  | .pilArg b =>
    .ok ({ s with original_image := some b, width := b.width, height := b.height }, .retSelf)
  | .ndarrayArg b =>
    let p := Buf.cv2ToPil b
    .ok ({ s with original_image := some p, width := p.width, height := p.height }, .retSelf)
  | .bytesArg b =>
    .ok ({ s with original_image := some b, width := b.width, height := b.height }, .retSelf)
  | .streamArg b =>
    .ok ({ s with original_image := some b, width := b.width, height := b.height }, .retSelf)
  | .otherArg => .error (.typeUnexpected, s)

/-- `MioImage.add_effect(effect)`: appends to the effect queue and
returns `self`. -/
def MioImage.add_effect (e : MioEffect) (s : MioImage) : MioImage :=
  { s with effects := s.effects ++ [e] }

/-- `MioImage.resize(target, interpolation, resize_method)`: constructs
a `MioResizeEffect` (which may raise) and appends it. -/
def MioImage.resizeCall (target : PyTarget) (interpolation : Int)
    (resize_method : String) (s : MioImage) : MioRes MioImage :=
  match MioResizeEffect.init target interpolation resize_method with
  | .error e => .error (e, s)
  | .ok eff => .ok (s.add_effect (.resize eff))

/-- `MioImage.copy()` (image.py lines 221-227): `new_image = self;
return new_image` — returns the very same pipeline object. -/
def MioImage.copy (s : MioImage) : MioImage :=
  s

/-- The effect loop of `render`: `for effect in self.effects:
effect.apply(self)`, stopping at the first raise (which leaves the
in-place mutations made so far). -/
def applyEffects : List MioEffect → MioImage → MioRes MioImage
  | [], s => .ok s
  | e :: rest, s =>
    match MioEffect.apply e s with
    | .ok s2 => applyEffects rest s2
    | .error p => .error p

/-- `MioImage.render()` (image.py lines 297-324): asserts a source is
present ("No image data to render."), copies it into the content layer
`image_center`, applies every queued effect in order, then snapshots
`image_center` into `result`, clears the three layers, sets
`has_rendered` and increments `rendered_times`. -/
def MioImage.render (s : MioImage) : MioRes MioImage :=
  match s.original_image with
  | none => .error (.assertionFailed, s)
  | some orig =>
    match applyEffects s.effects { s with image_center := some orig } with
    | .error p => .error p
    | .ok s2 =>
      .ok { s2 with result := s2.image_center,
                    image_bottom := none, image_center := none, image_top := none,
                    has_rendered := true, rendered_times := s2.rendered_times + 1 }

/-- `MioImage.save(path)` (image.py lines 108-122): if `result` is
absent, render (exceptions propagate); if still absent raise "No image
data to save."; then write `result` to the path.  The returned `Buf` is
the buffer actually written. -/
def MioImage.save (s : MioImage) : MioRes (MioImage × Buf) :=
  match s.result with
  | some r => .ok (s, r)
  | none =>
    match s.render with
    | .error p => .error p
    | .ok s2 =>
      match s2.result with
      | none => .error (.noImageData, s2)
      | some r => .ok (s2, r)

/-- `MioImage.to_bytes()` (image.py lines 124-137): same
ensure-rendered pattern as `save`; the returned `Buf` is the buffer
whose bytes are produced. -/
def MioImage.to_bytes (s : MioImage) : MioRes (MioImage × Buf) :=
  match s.result with
  | some r => .ok (s, r)
  | none =>
    match s.render with
    | .error p => .error p
    | .ok s2 =>
      match s2.result with
      | none => .error (.noImageData, s2)
      | some r => .ok (s2, r)

/-- An operation a caller can perform on an already-opened pipeline
(re-`open` excluded: the claims about source immutability quantify over
operations that come after the source was stored). -/
inductive PipeOp where
  | renderOp
  | addEffectOp (e : MioEffect)
  | resizeOp (t : PyTarget) (interp : Int) (method : String)
  | applyEffectOp (e : MioEffect)
  | saveOp
  | toBytesOp
  deriving Repr

/-- Run one pipeline operation, keeping only the pipeline state (the
`save`/`to_bytes` outputs do not feed back into the state). -/
def runOp : PipeOp → MioImage → MioRes MioImage
  | .renderOp, s => s.render
  | .addEffectOp e, s => .ok (s.add_effect e)
  | .resizeOp t i m, s => s.resizeCall t i m
  | .applyEffectOp e, s => MioEffect.apply e s
  | .saveOp, s => (s.save).map Prod.fst
  | .toBytesOp, s => (s.to_bytes).map Prod.fst

/-- Run a sequence of pipeline operations, stopping at the first raise
(with the state as mutated so far). -/
def runOps : List PipeOp → MioImage → MioRes MioImage
  | [], s => .ok s
  | op :: rest, s =>
    match runOp op s with
    | .ok s2 => runOps rest s2
    | .error p => .error p

/- Concrete scenario objects: a 100×100 source opened into a fresh
pipeline, and the effects the concrete claims exercise. -/

/-- A 100×100 source image. -/
def src0 : Buf := Buf.srcBuf 0 100 100

/-- The pipeline after `MioImage().open(src0)` with a PIL source. -/
def pOpened : MioImage :=
  { MioImage.mk0 with original_image := some src0, width := 100, height := 100 }

/-- A pipeline state mid-render: working buffer `src0` present (used to
instantiate theorems whose hypothesis is an opened working buffer). -/
def sWork : MioImage :=
  { pOpened with image_center := some src0 }

/-- `MioResizeEffect(0.5, interpolation=1, resize_method="pil")`. -/
def halfPil : MioResizeEffect :=
  { MioResizeEffect.defaults with
      width_ratio := 1/2, height_ratio := 1/2, resize_method := pilStr, interpolation := 1 }

/-- `MioResizeEffect(2.0, interpolation=1, resize_method="pil")`. -/
def doublePil : MioResizeEffect :=
  { MioResizeEffect.defaults with
      width_ratio := 2, height_ratio := 2, resize_method := pilStr, interpolation := 1 }

/-- `MioResizeEffect(-1.0, interpolation=1, resize_method="pil")`: a
queued effect whose `apply` raises "Invalid ratio value." -/
def badPil : MioResizeEffect :=
  { MioResizeEffect.defaults with
      width_ratio := -1, height_ratio := -1, resize_method := pilStr, interpolation := 1 }

/-- `MioResizeEffect()` with all defaults: ratio mode 1.0/1.0, "cv2". -/
def resizeNoop : MioResizeEffect := MioResizeEffect.defaults

/-- `MioCutEffect(0.5)` with the default "cv2" cut method. -/
def cutHalf : MioCutEffect :=
  { MioCutEffect.defaults with width_ratio := 1/2, height_ratio := 1/2 }

/-- `MioCutEffect(1.0)`: ratio mode with both ratios exactly 1.0. -/
def cutNoop : MioCutEffect := MioCutEffect.defaults

/-- `MioCutEffect(2.0)`: ratio mode with both ratios 2.0. -/
def cutTwo : MioCutEffect :=
  { MioCutEffect.defaults with width_ratio := 2, height_ratio := 2 }

/-- An unrecognized backend string. -/
def bogusStr : String := "bogus"

/-- A default (ratio 1.0/1.0) resize effect with an unrecognized
backend string. -/
def noopBogus : MioResizeEffect :=
  { MioResizeEffect.defaults with resize_method := bogusStr }

/-- A ratio-2.0 resize effect with an unrecognized backend string. -/
def doubleBogus : MioResizeEffect :=
  { MioResizeEffect.defaults with width_ratio := 2, height_ratio := 2, resize_method := bogusStr }

/-- An absolute-mode 10×10 resize effect with an unrecognized backend
string. -/
def absBogus : MioResizeEffect :=
  { MioResizeEffect.defaults with
      is_ratio_mode := false, target_width := 10, target_height := 10, resize_method := bogusStr }

/-- `pOpened.resize(0.5, 1, "pil")`: the half-resize queued. -/
def pQueued : MioImage := MioImage.add_effect (.resize halfPil) pOpened

/-- The pipeline after the first successful render of `pQueued`. -/
def pRendered : MioImage := stateOf pQueued.render

/-- The buffer the first render caches: `src0` resized to 50×50 via
PIL. -/
def r1 : Buf := Buf.pilResize src0 50 50 1

/-- `pRendered` with a further `resize(2.0, 1, "pil")` appended after
the successful render. -/
def pStale : MioImage := MioImage.add_effect (.resize doublePil) pRendered

/-- The buffer a re-render of `pStale` caches: both queued resizes
applied to a fresh copy of the source. -/
def r2 : Buf := Buf.pilResize (Buf.pilResize src0 50 50 1) 100 100 1

/-- `pOpened` with `MioCutEffect(0.5)` queued. -/
def qQueued : MioImage := MioImage.add_effect (.cut cutHalf) pOpened

/-- `qQueued` after its first render. -/
def qR1 : MioImage := stateOf qQueued.render

/-- `qR1` after a second render of the unchanged queue and source. -/
def qR2 : MioImage := stateOf qR1.render

/-- The first render's cached buffer: the top-left 50×50 crop. -/
def c1 : Buf := Buf.cv2ToPil (Buf.cv2Slice (Buf.pilToCv2 src0) 50 50)

/-- The second render's cached buffer: a 25×25 crop, because the cut
effect read the pipeline's post-first-render `width`/`height`. -/
def c2 : Buf := Buf.cv2ToPil (Buf.cv2Slice (Buf.pilToCv2 src0) 25 25)

/-- `pRendered` with a further half-resize and then the raising resize
queued: its render fails on the third effect after the first two have
already run. -/
def pFail : MioImage :=
  MioImage.add_effect (.resize badPil) (MioImage.add_effect (.resize halfPil) pRendered)

/-- The pipeline state the failed render of `pFail` leaves behind. -/
def tFail : MioImage := stateOf pFail.render

/-- Every resize application either returns the pipeline unchanged,
raises with the pipeline unchanged, or replaces only the working layer
and the dimensions. -/
theorem resize_apply_shape (e : MioResizeEffect) (s : MioImage) :
    e.apply s = .ok s ∨ (∃ err, e.apply s = .error (err, s)) ∨
    (∃ nc, e.apply s =
      .ok { s with image_center := some nc, width := nc.width, height := nc.height }) := by
  unfold MioResizeEffect.apply
  repeat' split
  all_goals
    first
      | exact Or.inl rfl
      | exact Or.inr (Or.inl ⟨_, rfl⟩)
      | exact Or.inr (Or.inr ⟨_, rfl⟩)

/-- Every cut application either returns the pipeline unchanged, raises
with the pipeline unchanged, or replaces only the working layer and the
dimensions. -/
theorem cut_apply_shape (e : MioCutEffect) (s : MioImage) :
    e.apply s = .ok s ∨ (∃ err, e.apply s = .error (err, s)) ∨
    (∃ nc, e.apply s =
      .ok { s with image_center := some nc, width := nc.width, height := nc.height }) := by
  unfold MioCutEffect.apply
  repeat' split
  all_goals
    first
      | exact Or.inl rfl
      | exact Or.inr (Or.inl ⟨_, rfl⟩)
      | exact Or.inr (Or.inr ⟨_, rfl⟩)

/-- An effect application never touches the cached `result`, the stored
source, or the effect queue, whether it returns or raises. -/
theorem MioEffect.apply_state_fields (e : MioEffect) (s : MioImage) :
    (stateOf (MioEffect.apply e s)).result = s.result ∧
    (stateOf (MioEffect.apply e s)).original_image = s.original_image ∧
    (stateOf (MioEffect.apply e s)).effects = s.effects := by
  cases e with
  | base => exact ⟨rfl, rfl, rfl⟩
  | resize e =>
    rcases resize_apply_shape e s with h | ⟨err, h⟩ | ⟨nc, h⟩ <;>
      simp [MioEffect.apply, h, stateOf]
  | cut e =>
    rcases cut_apply_shape e s with h | ⟨err, h⟩ | ⟨nc, h⟩ <;>
      simp [MioEffect.apply, h, stateOf]

/-- The render loop never touches the cached `result` or the stored
source, whether it completes or raises part-way. -/
theorem applyEffects_state_fields (es : List MioEffect) (s : MioImage) :
    (stateOf (applyEffects es s)).result = s.result ∧
    (stateOf (applyEffects es s)).original_image = s.original_image := by
  induction es generalizing s with
  | nil => exact ⟨rfl, rfl⟩
  | cons e rest ih =>
    have he := MioEffect.apply_state_fields e s
    rcases hae : MioEffect.apply e s with p | s2
    · rw [hae] at he
      obtain ⟨err, t⟩ := p
      simp only [stateOf] at he
      simp only [applyEffects, hae, stateOf]
      exact ⟨he.1, he.2.1⟩
    · rw [hae] at he
      simp only [stateOf] at he
      have hr := ih s2
      simp only [applyEffects, hae]
      exact ⟨hr.1.trans he.1, hr.2.trans he.2.1⟩

/-- `render` never changes the stored source, whether it succeeds or
raises. -/
theorem MioImage.render_original (s : MioImage) :
    (stateOf s.render).original_image = s.original_image := by
  unfold MioImage.render
  rcases ho : s.original_image with _ | orig
  · simp [stateOf, ho]
  · have h := applyEffects_state_fields s.effects
      {s with original_image := some orig, image_center := some orig}
    rcases hae : applyEffects s.effects
        {s with original_image := some orig, image_center := some orig} with p | s2
    · rw [hae] at h
      obtain ⟨err, t⟩ := p
      simp only [stateOf] at h
      simp only [hae, stateOf]
      simpa using h.2
    · rw [hae] at h
      simp only [stateOf] at h
      simp only [hae, stateOf]
      simpa using h.2

/-- The `save` accessor, viewed as a state transformer, never changes
the stored source (it at most triggers a render). -/
theorem MioImage.save_original (s : MioImage) :
    (stateOf ((s.save).map Prod.fst)).original_image = s.original_image := by
  unfold MioImage.save
  rcases hr : s.result with _ | r
  · have h := MioImage.render_original s
    rcases hren : s.render with p | s2
    · rw [hren] at h
      obtain ⟨err, t⟩ := p
      simp only [stateOf] at h
      simp [hren, Except.map, stateOf, h]
    · rw [hren] at h
      simp only [stateOf] at h
      rcases hr2 : s2.result with _ | r2 <;>
        simp [hren, hr2, Except.map, stateOf, h]
  · simp [Except.map, stateOf]

/-- The `to_bytes` accessor, viewed as a state transformer, never
changes the stored source. -/
theorem MioImage.to_bytes_original (s : MioImage) :
    (stateOf ((s.to_bytes).map Prod.fst)).original_image = s.original_image := by
  unfold MioImage.to_bytes
  rcases hr : s.result with _ | r
  · have h := MioImage.render_original s
    rcases hren : s.render with p | s2
    · rw [hren] at h
      obtain ⟨err, t⟩ := p
      simp only [stateOf] at h
      simp [hren, Except.map, stateOf, h]
    · rw [hren] at h
      simp only [stateOf] at h
      rcases hr2 : s2.result with _ | r2 <;>
        simp [hren, hr2, Except.map, stateOf, h]
  · simp [Except.map, stateOf]

/-- No single pipeline operation changes the stored source. -/
theorem runOp_original (op : PipeOp) (s : MioImage) :
    (stateOf (runOp op s)).original_image = s.original_image := by
  cases op with
  | renderOp => exact MioImage.render_original s
  | addEffectOp e => rfl
  | resizeOp t i m =>
    unfold runOp MioImage.resizeCall
    rcases h : MioResizeEffect.init t i m with err | eff <;>
      simp [h, stateOf, MioImage.add_effect]
  | applyEffectOp e => exact (MioEffect.apply_state_fields e s).2.1
  | saveOp => exact MioImage.save_original s
  | toBytesOp => exact MioImage.to_bytes_original s

/-- C2 (amended): if `render()` fails because a queued effect raises,
rendering stops at that effect and the prior cached `result` is left
untouched — though the dimensions and the working layer may be left
partially mutated by the effects that ran before the failure. -/
theorem failed_render_keeps_cached_result : ∀ (s t : MioImage) (err : MioError),
    s.render = .error (err, t) → t.result = s.result := by
  intro s t err h
  unfold MioImage.render at h
  split at h
  · simp only [Except.error.injEq, Prod.mk.injEq] at h
    rw [← h.2]
  · rename_i orig ho
    split at h
    · rename_i p hae
      have hp := applyEffects_state_fields s.effects {s with image_center := some orig}
      rw [hae] at hp
      obtain ⟨e2, t2⟩ := p
      simp only [stateOf] at hp
      simp only [Except.error.injEq, Prod.mk.injEq] at h
      rw [← h.2]
      simpa using hp.1
    · exact Except.noConfusion h

/-- Witness for `failed_render_keeps_cached_result`: the concrete
pipeline `pFail` (previously rendered, then a succeeding and a raising
resize appended) fails its re-render yet keeps its cached result. -/
theorem failed_render_keeps_cached_result_witness :
    pFail.render = .error (.invalidRatio, tFail) ∧ tFail.result = pFail.result :=
  ⟨by decide, failed_render_keeps_cached_result pFail tFail .invalidRatio (by decide)⟩

/-- C1: the claim says appending an Effect after a successful render
invalidates the cached result, so a subsequent export re-renders and
reflects the new Effect.  In the code `add_effect` leaves `result`
untouched, so `save` on `pStale` (rendered, then `resize(2.0)` appended)
serves the stale pre-append buffer `r1`; a re-render would have produced
`r2 ≠ r1`, which does reflect the appended effect. -/
theorem add_effect_keeps_stale_cache :
    pQueued.render = .ok pRendered ∧
    pRendered.result = some r1 ∧
    pStale.save = .ok (pStale, r1) ∧
    pStale.render = .ok (stateOf pStale.render) ∧
    (stateOf pStale.render).result = some r2 ∧
    r1 ≠ r2 := by decide

/-- C2 (counterexample): after the failed render of `pFail` the prior
cached result is indeed untouched, but the pipeline is NOT left in its
last-good state: the two effects that ran before the raising one changed
`width` (50 → 25) and left a working buffer in `image_center`, so the
pipeline is left partially mutated. -/
theorem failed_render_leaves_partial_mutation :
    pFail.render = .error (.invalidRatio, tFail) ∧
    tFail.result = pFail.result ∧
    tFail.width ≠ pFail.width ∧
    tFail.image_center ≠ pFail.image_center := by decide

/-- C3: rendering `qQueued` (100×100 source, one ratio-0.5 cut) twice
without touching the queue or the source yields different cached
results: the first render crops to 50×50, the second to 25×25, because
the cut effect computes its bounds from the pipeline's stale
`width`/`height` fields instead of the fresh working buffer. -/
theorem rerender_not_idempotent :
    qQueued.render = .ok qR1 ∧
    qR1.result = some c1 ∧
    qR1.effects = qQueued.effects ∧
    qR1.original_image = qQueued.original_image ∧
    qR1.render = .ok qR2 ∧
    qR2.result = some c2 ∧
    c1 ≠ c2 := by decide

/-- C4: for every ratio-mode resize effect applied to an opened working
buffer, whatever the backend string: both ratios exactly 1.0 → no-op
success; either ratio ≤ 0 → raises "Invalid ratio value."
(InvalidRatioError).  Both checks run before the backend dispatch. -/
theorem resize_ratio_checks (e : MioResizeEffect) (s : MioImage) (c : Buf)
    (hc : s.image_center = some c) (hm : e.is_ratio_mode = true) :
    (e.width_ratio = 1 ∧ e.height_ratio = 1 → e.apply s = .ok s) ∧
    (e.width_ratio ≤ 0 ∨ e.height_ratio ≤ 0 →
      e.apply s = .error (.invalidRatio, s)) := by
  unfold MioResizeEffect.apply
  rw [hc]
  constructor
  · rintro ⟨h1, h2⟩
    simp [hm, h1, h2]
  · intro h
    have hne : ¬(e.width_ratio = 1 ∧ e.height_ratio = 1) := by
      rintro ⟨h1, h2⟩
      rcases h with h | h
      · rw [h1] at h; norm_num at h
      · rw [h2] at h; norm_num at h
    simp [hm, hne, h]

/-- Witness for `resize_ratio_checks`: the default 1.0/1.0 effect is a
no-op on `sWork`, and the -1.0 effect raises InvalidRatioError. -/
theorem resize_ratio_checks_witness :
    resizeNoop.apply sWork = .ok sWork ∧
    badPil.apply sWork = .error (.invalidRatio, sWork) :=
  ⟨(resize_ratio_checks resizeNoop sWork src0 rfl rfl).1 ⟨rfl, rfl⟩,
   (resize_ratio_checks badPil sWork src0 rfl rfl).2 (Or.inl (by norm_num [badPil]))⟩

/-- C5 (counterexample): the claim says a ratio-mode cut fails with
InvalidRatioError whenever either ratio is ≥ 1.0, but `MioCutEffect(1.0)`
has both ratios ≥ 1.0 and succeeds as a no-op: the both-equal-1.0
short-circuit runs before the ≥ 1.0 check. -/
theorem cut_ratio_one_noop :
    cutNoop.is_ratio_mode = true ∧
    1 ≤ cutNoop.width_ratio ∧ 1 ≤ cutNoop.height_ratio ∧
    sWork.image_center = some src0 ∧
    cutNoop.apply sWork = .ok sWork := by decide

/-- C5 (amended): a ratio-mode cut on an opened working buffer raises
"Invalid ratio value." (InvalidRatioError) whenever either ratio is ≤ 0
or ≥ 1.0, for every backend — except when both ratios equal exactly 1.0,
in which case apply is a successful no-op. -/
theorem cut_ratio_checks (e : MioCutEffect) (s : MioImage) (c : Buf)
    (hc : s.image_center = some c) (hm : e.is_ratio_mode = true)
    (hno : ¬(e.width_ratio = 1 ∧ e.height_ratio = 1))
    (h : e.width_ratio ≤ 0 ∨ e.height_ratio ≤ 0 ∨
      1 ≤ e.width_ratio ∨ 1 ≤ e.height_ratio) :
    e.apply s = .error (.invalidRatio, s) := by
  unfold MioCutEffect.apply
  rw [hc]
  simp [hm, hno, h]

/-- Witness for `cut_ratio_checks`: `MioCutEffect(2.0)` raises
InvalidRatioError on `sWork`. -/
theorem cut_ratio_checks_witness :
    cutTwo.apply sWork = .error (.invalidRatio, sWork) :=
  cut_ratio_checks cutTwo sWork src0 rfl rfl (by decide)
    (Or.inr (Or.inr (Or.inl (by norm_num [cutTwo, MioCutEffect.defaults]))))

/-- C6: the claim says a mixed int/float pair such as [300, 300.0] (and
wrong arity) fails with InvalidTargetError at construction time.  In the
code only 1-element sequences (and non-numeric, non-sequence targets)
raise: a mixed pair and a 3-element sequence fall through the
classification silently, and the constructor returns the default
identity configuration (ratio mode, ratios 1.0/1.0). -/
theorem mixed_pair_target_silently_accepted :
    MioResizeEffect.init (.seq [.pyInt 300, .pyFloat 300]) 1 cv2Str =
      .ok { MioResizeEffect.defaults with interpolation := 1 } ∧
    MioResizeEffect.init (.seq [.pyFloat 3, .pyFloat 3, .pyFloat 3]) 1 cv2Str =
      .ok { MioResizeEffect.defaults with interpolation := 1 } ∧
    MioResizeEffect.init (.seq [.pyFloat 3]) 1 cv2Str = .error .invalidTarget := by
  decide

/-- C7 (counterexample): the claim says an unrecognized backend string
always makes `apply` fail with UnsupportedBackendError, but the default
ratio-1.0 effect with backend "bogus" succeeds: the no-op short-circuit
returns before the backend is ever consulted. -/
theorem unknown_backend_noop_succeeds :
    noopBogus.resize_method ≠ cv2Str ∧ noopBogus.resize_method ≠ pilStr ∧
    noopBogus.apply sWork = .ok sWork := by decide

/-- C7 (amended): a resize effect with an unrecognized backend string
fails with "Invalid resize method." (UnsupportedBackendError) on an
opened working buffer, provided the earlier checks do not fire first: in
ratio mode the ratios are valid and not both 1.0, or in absolute mode
the targets are positive and differ from the current dimensions. -/
theorem unknown_backend_rejected (e : MioResizeEffect) (s : MioImage) (c : Buf)
    (hc : s.image_center = some c)
    (h1 : e.resize_method ≠ cv2Str) (h2 : e.resize_method ≠ pilStr) :
    (e.is_ratio_mode = true → ¬(e.width_ratio = 1 ∧ e.height_ratio = 1) →
      ¬(e.width_ratio ≤ 0 ∨ e.height_ratio ≤ 0) →
      e.apply s = .error (.invalidResizeMethod, s)) ∧
    (e.is_ratio_mode = false → ¬(e.target_width ≤ 0 ∨ e.target_height ≤ 0) →
      ¬(e.target_width = s.width ∧ e.target_height = s.height) →
      e.apply s = .error (.invalidResizeMethod, s)) := by
  unfold MioResizeEffect.apply
  rw [hc]
  constructor
  · intro hm hno hv
    simp [hm, hno, hv, h1, h2]
  · intro hm ht hne
    simp [hm, ht, hne, h1, h2]

/-- Witness for `unknown_backend_rejected`: the ratio-2.0 and the
absolute 10×10 effects with backend "bogus" both raise "Invalid resize
method." on `sWork`. -/
theorem unknown_backend_rejected_witness :
    doubleBogus.apply sWork = .error (.invalidResizeMethod, sWork) ∧
    absBogus.apply sWork = .error (.invalidResizeMethod, sWork) :=
  ⟨(unknown_backend_rejected doubleBogus sWork src0 rfl (by decide) (by decide)).1
      rfl (by decide) (by decide),
   (unknown_backend_rejected absBogus sWork src0 rfl (by decide) (by decide)).2
      rfl (by decide) (by decide)⟩

/-- C8: `open(None)` leaves the pipeline state unchanged, but it takes
the bare `return` statement: the call evaluates to Python `None`
(`retNone`), not to `self`, so chaining breaks after `open(None)` even
though every other accepted argument shape does return `self`
(illustrated for a decoded raster source). -/
theorem open_none_returns_python_none :
    (∀ s : MioImage, MioImage.openImage .noneArg s = .ok (s, .retNone)) ∧
    (∀ (s : MioImage) (b : Buf),
      MioImage.openImage (.pilArg b) s =
        .ok ({ s with original_image := some b, width := b.width, height := b.height },
          .retSelf)) :=
  ⟨fun _ => rfl, fun _ _ => rfl⟩

/-- C9: the stored source buffer is never changed by any later pipeline
operation: renders (successful or failed), direct effect applications,
queue appends, `resize` calls and the exporting accessors all leave
`original_image` exactly as `open` stored it. -/
theorem source_never_mutated (ops : List PipeOp) (s : MioImage) :
    (stateOf (runOps ops s)).original_image = s.original_image := by
  induction ops generalizing s with
  | nil => rfl
  | cons op rest ih =>
    have h := runOp_original op s
    rcases hop : runOp op s with p | s2
    · rw [hop] at h
      obtain ⟨err, t⟩ := p
      simp only [stateOf] at h
      simp only [runOps, hop, stateOf]
      exact h
    · rw [hop] at h
      simp only [stateOf] at h
      simp only [runOps, hop]
      exact (ih s2).trans h

/-- C10: `copy()` returns the very same pipeline object (`new_image =
self; return new_image`), not an independent duplicate: in the
functional embedding `copy` is the identity, so every subsequent
operation through the returned object coincides with the same operation
on the original. -/
theorem copy_returns_same_object :
    ∀ p : MioImage, p.copy = p ∧
      (∀ e : MioEffect, MioImage.add_effect e p.copy = MioImage.add_effect e p) ∧
      p.copy.render = p.render :=
  fun _ => ⟨rfl, fun _ => rfl, rfl⟩
